import Mathlib

/-!
Verification development for the insighthub ingestion subsystem.

Shallow embedding of the budget-governed multi-source aggregation engine:
  * `backend/apps/ingestion/budget_control.py` (BudgetTracker, RateLimiter)
  * `backend/apps/ingestion/sources/foursquare.py` (FoursquareSource)
  * `backend/apps/ingestion/sources/yelp.py` / `google_places.py` (gating shape)
  * `backend/apps/ingestion/services/data_collector.py` (DataCollector)
  * `backend/apps/ingestion/views.py` (parameter clamping)

Python floats are modelled by exact rationals, Python dict/JSON payloads by an
inductive `Json` type, raised exceptions by `Except`, and effects (cache, HTTP,
governor consultations) by explicit event traces.
-/

namespace Insight

/-- Python list slicing `l[:n]`: a nonnegative bound takes the first `n`
elements, a negative bound `-k` drops the last `k` elements. -/
def pySliceTo (n : Int) (l : List α) : List α :=
  if 0 ≤ n then l.take n.toNat else l.take (l.length - (-n).toNat)

/-- Python `min` over a nonempty list of numbers (the `[]` case is never
reached by the code paths modelled here, where the list is nonempty). -/
def minList : List ℚ → ℚ
  | [] => 0
  | [t] => t
  | t :: u :: ts => min t (minList (u :: ts))

/-- Python `round` to the nearest integer, ties going to the even integer
(banker's rounding), as used by `round(x, n)`. -/
def pyRound (q : ℚ) : ℤ :=
  let f := ⌊q⌋
  let r := q - (f : ℚ)
  if r < 1/2 then f
  else if 1/2 < r then f + 1
  else if f % 2 = 0 then f else f + 1

/-- Python `round(q, ndigits)` over exact rationals. -/
def pyRoundTo (ndigits : Nat) (q : ℚ) : ℚ :=
  (pyRound (q * 10 ^ ndigits) : ℚ) / 10 ^ ndigits

/-- Boolean test: the character list `pre` is an initial segment of `l`. -/
def prefixB : List Char → List Char → Bool
  | [], _ => true
  | _ :: _, [] => false
  | a :: as, b :: bs => a == b && prefixB as bs

/-- Boolean test: `needle` occurs as a contiguous run inside `hay`
(Python `needle in hay` on strings). -/
def infixB (needle : List Char) : List Char → Bool
  | [] => prefixB needle []
  | a :: rest => prefixB needle (a :: rest) || infixB needle rest

/-- `needle.lower() in hay.lower()` from
`DataCollector.collect_competitors` (data_collector.py line 181). -/
def containsLower (hay needle : String) : Bool :=
  infixB (needle.data.map Char.toLower) (hay.data.map Char.toLower)

/-- Association-list lookup (Python `dict.get(k)` on string keys). -/
def alookup (k : String) : List (String × α) → Option α
  | [] => none
  | (k', v) :: rest => if k = k' then some v else alookup k rest

/-- Association-list update with Python dict semantics: an existing key keeps
its position and gets the new value, a new key is appended at the end. -/
def aset (k : String) (v : α) : List (String × α) → List (String × α)
  | [] => [(k, v)]
  | (k', v') :: rest =>
      if k = k' then (k, v) :: rest else (k', v') :: aset k v rest

/-! ## JSON payloads

Provider-native payloads are Python dicts/lists/strings/numbers.  `Json.getD`
models `dict.get(key, default)`: on a non-dict receiver Python raises
`AttributeError`, modelled as `Except.error ()`. -/

inductive Json where
  | null
  | bool (v : Bool)
  | num (v : ℚ)
  | str (v : String)
  | arr (items : List Json)
  | obj (fields : List (String × Json))

/-- Python truthiness of a JSON value. -/
def Json.truthy : Json → Bool
  | .null => false
  | .bool v => v
  | .num q => decide (q ≠ 0)
  | .str s => decide (s ≠ "")
  | .arr [] => false
  | .arr (_ :: _) => true
  | .obj [] => false
  | .obj (_ :: _) => true

/-- Python `a or b`. -/
def pyOr (a b : Json) : Json := if a.truthy then a else b

/-- `receiver.get(key, default)`; raises when the receiver is not a dict. -/
def Json.getD : Json → String → Json → Except Unit Json
  | .obj fields, k, dflt => .ok ((alookup k fields).getD dflt)
  | _, _, _ => .error ()

/-- `receiver.get(key)` (default `None`). -/
def Json.getN (j : Json) (k : String) : Except Unit Json := j.getD k .null

/-- Iterating a value as a Python list; raises on a non-list. -/
def asArr : Json → Except Unit (List Json)
  | .arr l => .ok l
  | _ => .error ()

/-- Reading a value as a Python string; raises otherwise (as `str.join` does
on non-string elements). -/
def asStr : Json → Except Unit String
  | .str s => .ok s
  | _ => .error ()

/-! ## FoursquareSource._format_business (foursquare.py lines 274-323) -/

/-- One entry of the category list built by `_format_business`
(foursquare.py lines 282-289). -/
def formatCategory (cat : Json) : Except Unit Json := do
  let cid ← cat.getN "id"
  let cname ← cat.getN "name"
  let cshort ← cat.getN "short_name"
  let ciconRaw ← cat.getN "icon"
  let cicon : Json :=
    match ciconRaw with
    | .obj f => (alookup "prefix" f).getD .null
    | other => other
  pure (.obj [("id", cid), ("name", cname), ("short_name", cshort),
              ("icon", cicon)])

/-- The `name` value of a category dict built by `formatCategory`
(the `category_names` comprehension, foursquare.py line 303). -/
def catName : Json → Json
  | .obj f => (alookup "name" f).getD .null
  | _ => .null

/-- Values dropped by the final clean-up
`{k: v for k, v in business.items() if v not in [None, '', [], {}]}`
(foursquare.py line 316). -/
def isEmptyVal : Json → Bool
  | .null => true
  | .str "" => true
  | .arr [] => true
  | .obj [] => true
  | _ => false

/-- Body of `FoursquareSource._format_business` up to the `except` handler:
each field access mirrors foursquare.py lines 277-313; a raising access
(`.get` on a non-dict, iteration over a non-list) yields `Except.error`. -/
def format_business_core (place : Json) : Except Unit Json := do
  let location ← place.getD "location" (.obj [])
  let geocodes ← (← place.getD "geocodes" (.obj [])).getD "main" (.obj [])
  let rawCats ← asArr (← place.getD "categories" (.arr []))
  let categories ← rawCats.mapM formatCategory
  let fsqId ← place.getN "fsq_id"
  let pid ← place.getN "id"
  let nameV ← place.getD "name" (.str "Unknown")
  let addr1 ← location.getN "formatted_address"
  let addr2 ← location.getN "address"
  let city ← location.getN "locality"
  let state ← location.getN "region"
  let country ← location.getN "country"
  let postal ← location.getN "postcode"
  let lat1 ← geocodes.getN "latitude"
  let lat2 ← location.getN "lat"
  let lng1 ← geocodes.getN "longitude"
  let lng2 ← location.getN "lng"
  let distance ← place.getN "distance"
  let rating ← place.getN "rating"
  let priceRaw ← place.getN "price"
  let price : Json :=
    match priceRaw with
    | .obj f => (alookup "tier" f).getD .null
    | other => other
  let stats ← place.getD "stats" (.obj [])
  let hours ← place.getD "hours" (.obj [])
  let popularity ← place.getN "popularity"
  let tastes ← place.getD "tastes" (.arr [])
  let fields : List (String × Json) :=
    [("id", pyOr fsqId pid),
     ("name", nameV),
     ("address", pyOr addr1 addr2),
     ("city", city),
     ("state", state),
     ("country", country),
     ("postal_code", postal),
     ("latitude", pyOr lat1 lat2),
     ("longitude", pyOr lng1 lng2),
     ("categories", .arr categories),
     ("category_names", .arr (categories.map catName)),
     ("distance", distance),
     ("rating", rating),
     ("price", price),
     ("stats", stats),
     ("hours", hours),
     ("popularity", popularity),
     ("tastes", tastes),
     ("source", .str "foursquare"),
     ("raw_data", place)]
  pure (.obj (fields.filter (fun kv => !isEmptyVal kv.2)))

/-- `FoursquareSource._format_business`: any exception inside the body is
caught and turned into `None` (foursquare.py lines 320-323). -/
def format_business (place : Json) : Option Json :=
  match format_business_core place with
  | .ok j => some j
  | .error _ => none

/-- The normalization loop of `FoursquareSource.search_businesses`
(foursquare.py lines 125-129): each payload is formatted, truthy results are
appended, the rest are skipped. -/
def format_batch : List Json → List Json
  | [] => []
  | p :: ps =>
      match format_business p with
      | some j => if j.truthy then j :: format_batch ps else format_batch ps
      | none => format_batch ps

/-! ## BudgetTracker (budget_control.py lines 15-144)

`budget_data` is the JSON structure persisted in `data/api_budget.json`;
`daily_usage` maps a calendar date to per-provider request counts.  Python
dicts become insertion-ordered association lists so that key insertion is an
observable state change, exactly as it is on the Python object. -/

structure BudgetData where
  total_cost : ℚ
  daily_usage : List (String × List (String × Nat))
  monthly_usage : List (String × Nat)
  alerts_sent : List String
  deriving Repr, DecidableEq

/-- The initial structure written by `_load_budget` when no budget file
exists (budget_control.py lines 44-49). -/
def initialBudget : BudgetData :=
  { total_cost := 0, daily_usage := [], monthly_usage := [], alerts_sent := [] }

/-- The durable budget file (`data/api_budget.json`); `none` when the file
does not exist yet. -/
structure Store where
  contents : Option BudgetData
  deriving Repr, DecidableEq

/-- `BudgetTracker._save_budget` (budget_control.py lines 52-56). -/
def saveBudget (d : BudgetData) (_s : Store) : Store := ⟨some d⟩

/-- `BudgetTracker._load_budget` (budget_control.py lines 38-50): read the
file if it exists, otherwise initialize and write the initial state. -/
def loadBudget (s : Store) : BudgetData × Store :=
  match s.contents with
  | some d => (d, s)
  | none => (initialBudget, saveBudget initialBudget s)

/-- `self.daily_limits` (budget_control.py lines 23-27); unknown providers
default to 50 at the lookup sites. -/
def daily_limits : List (String × Nat) :=
  [("google_places", 100), ("yelp", 500), ("foursquare", 100)]

/-- `self.daily_limits.get(api_name, 50)`. -/
def dailyLimitOf (api : String) : Nat := (alookup api daily_limits).getD 50

/-- `self.cost_per_request` (budget_control.py lines 29-36). -/
def cost_per_request : List (String × ℚ) :=
  [("google_places_details", 5/1000), ("google_places_search", 17/1000),
   ("google_places_photos", 7/1000), ("yelp_business", 0), ("yelp_search", 0),
   ("foursquare_venues", 0)]

/-- `self.cost_per_request.get(f"{api_name}_{endpoint}", 0.01)`. -/
def requestCost (api endpoint : String) : ℚ :=
  (alookup (api ++ "_" ++ endpoint) cost_per_request).getD (1/100)

/-- The count recorded for `api` on day `today`, reading absent entries
as 0 (the view a caller of the tracker observes). -/
def dailyCountOf (d : BudgetData) (today api : String) : Nat :=
  (alookup api ((alookup today d.daily_usage).getD [])).getD 0

/-- `if today not in self.budget_data['daily_usage']:` insert `{}`
(budget_control.py lines 63-64 / 92-93). -/
def initDay (today : String) (d : BudgetData) : BudgetData :=
  match alookup today d.daily_usage with
  | some _ => d
  | none => { d with daily_usage := aset today [] d.daily_usage }

/-- `if api_name not in self.budget_data['daily_usage'][today]:` insert `0`
(budget_control.py lines 66-67 / 94-95). -/
def initApi (today api : String) (d : BudgetData) : BudgetData :=
  match alookup api ((alookup today d.daily_usage).getD []) with
  | some _ => d
  | none =>
      { d with
          daily_usage := aset today
            (aset api 0 ((alookup today d.daily_usage).getD [])) d.daily_usage }

/-- The key-initialization prelude shared by `can_make_request`
(budget_control.py lines 62-67) and `record_request` (lines 91-95): missing
`daily_usage[today]` and `daily_usage[today][api_name]` entries are inserted
with value `{}` / `0`. -/
def initUsage (today api : String) (d : BudgetData) : BudgetData :=
  initApi today api (initDay today d)

/-- `BudgetTracker.can_make_request` (budget_control.py lines 58-85).
`today` stands for `datetime.now().strftime('%Y-%m-%d')`.  Returns the
boolean result together with the (possibly key-initialized) tracker state. -/
def can_make_request (api endpoint today : String) (d : BudgetData) :
    Bool × BudgetData :=
  let d2 := initUsage today api d
  let daily_count := dailyCountOf d2 today api
  let daily_limit := dailyLimitOf api
  if daily_limit ≤ daily_count then (false, d2)
  else
    let estimated_cost := requestCost api endpoint
    if 5 < d2.total_cost + estimated_cost then (false, d2)
    else (true, d2)

/-- The alert text `f"{api_name}: {count}/{limit} daily requests"`
(budget_control.py line 121). -/
def dailyAlertMsg (api : String) (count limit : Nat) : String :=
  api ++ ": " ++ toString count ++ "/" ++ toString limit ++ " daily requests"

/-- Two-digit zero padding for the fractional cents of a cost alert. -/
def pad2 (n : Nat) : String :=
  if n < 10 then "0" ++ toString n else toString n

/-- Rendering of `f"{q:.2f}"` for the cost alert string. -/
def fixed2 (q : ℚ) : String :=
  let cents := pyRound (q * 100)
  if cents < 0 then
    "-" ++ toString ((-cents) / 100) ++ "." ++ pad2 ((-cents) % 100).toNat
  else
    toString (cents / 100) ++ "." ++ pad2 (cents % 100).toNat

/-- `f"Total cost: ${total:.2f}"` (budget_control.py line 125). -/
def costAlertMsg (total : ℚ) : String := "Total cost: $" ++ fixed2 total

/-- `BudgetTracker._check_alerts` (budget_control.py lines 111-133): collect
due alert messages, append the not-yet-sent ones one by one, save. -/
def check_alerts (today : String) (d : BudgetData) (s : Store) :
    BudgetData × Store :=
  let usage := (alookup today d.daily_usage).getD []
  let dailyAlerts := usage.filterMap (fun kv =>
    if ((dailyLimitOf kv.1 : ℚ) * (8/10)) ≤ (kv.2 : ℚ) then
      some (dailyAlertMsg kv.1 kv.2 (dailyLimitOf kv.1))
    else none)
  let alerts := dailyAlerts ++
    (if 1 ≤ d.total_cost then [costAlertMsg d.total_cost] else [])
  let sent := alerts.foldl
    (fun acc a => if a ∈ acc then acc else acc ++ [a]) d.alerts_sent
  let d' := { d with alerts_sent := sent }
  (d', saveBudget d' s)

/-- `BudgetTracker.record_request` (budget_control.py lines 87-109): init
keys, bump today's counter, add the tabulated cost, save, check alerts
(which saves again), return the cost. -/
def record_request (api endpoint today : String) (d : BudgetData) (s : Store) :
    BudgetData × Store × ℚ :=
  let d1 := initUsage today api d
  let usage := (alookup today d1.daily_usage).getD []
  let count := (alookup api usage).getD 0
  let d2 := { d1 with daily_usage := aset today (aset api (count + 1) usage) d1.daily_usage }
  let cost := requestCost api endpoint
  let d3 := { d2 with total_cost := d2.total_cost + cost }
  let s1 := saveBudget d3 s
  let r := check_alerts today d3 s1
  (r.1, r.2, cost)

/-- A sequence of recorded requests, each given as `(today, api, endpoint)`,
run against a tracker state and its store. -/
def runRecords : BudgetData → Store → List (String × String × String) →
    BudgetData × Store
  | d, s, [] => (d, s)
  | d, s, (today, api, endpoint) :: ops =>
      let r := record_request api endpoint today d s
      runRecords r.1 r.2.1 ops

/-! ## RateLimiter (budget_control.py lines 147-172)

Wall-clock instants are rationals.  `wait_if_needed` is modelled as a pure
step: given the recorded window and the arrival instant `now`, it returns the
delay imposed on the caller (`sleep(wait_time)`) and the new window.  The
recorded timestamp is the pre-sleep `now`, exactly as in the source. -/

structure RLStep where
  delay : ℚ
  window : List ℚ
  deriving Repr, DecidableEq

/-- `RateLimiter.wait_if_needed` with `requests_per_minute = n`
(budget_control.py lines 154-172). -/
def wait_if_needed (n : Nat) (window : List ℚ) (now : ℚ) : RLStep :=
  let pruned := window.filter (fun t => decide (now - t < 60))
  if n ≤ pruned.length then
    let wait := 60 - (now - minList pruned)
    { delay := if 0 < wait then wait else 0, window := pruned ++ [now] }
  else
    { delay := 0, window := pruned ++ [now] }

/-- A sequence of sequential callers: each call arrives at the given instant,
suffers its delay, and is admitted (returns from `wait_if_needed`) at
arrival + delay.  Returns the admission instants. -/
def runCalls (n : Nat) : List ℚ → List ℚ → List ℚ
  | _, [] => []
  | window, a :: rest =>
      let step := wait_if_needed n window a
      (a + step.delay) :: runCalls n step.window rest

/-- Arrival instants are feasible for sequential callers: each arrival is no
earlier than the previous call's admission. -/
def seqOK (n : Nat) : List ℚ → List ℚ → Bool
  | _, [] => true
  | window, a :: rest =>
      let step := wait_if_needed n window a
      match rest with
      | [] => true
      | b :: _ => decide (a + step.delay ≤ b) && seqOK n step.window rest

/-- Number of admissions falling in the rolling window `[lo, lo + 60)`. -/
def admissionsWithin (lo : ℚ) (l : List ℚ) : Nat :=
  (l.filter (fun t => decide (lo ≤ t) && decide (t < lo + 60))).length

/-! ## Adapter call traces

Effects performed by an adapter search, in the order the source performs
them.  `httpGet` is the outgoing network request (`requests.get`);
`budgetCheck` is a `BudgetTracker.can_make_request` consultation, `rateWait`
a `RateLimiter.wait_if_needed` consultation, `budgetRecord` a
`BudgetTracker.record_request` call. -/

inductive GateEvent where
  | cacheGet
  | cacheSet
  | budgetCheck
  | rateWait
  | httpGet
  | budgetRecord
  deriving Repr, DecidableEq

/-- `FoursquareSource.search_businesses` (foursquare.py lines 56-144).
`cached` is the value under the request's cache key (`cache.get`); `http`
is the outcome of the network request with its parsed `results` list, an
`error` covering network/HTTP failures (`raise_for_status`).  On a cache
miss the request goes out with no governor consultation of any kind. -/
def foursquare_search (cached : Option (List Json))
    (http : Except String (List Json)) (limit : Int) :
    Except String (List Json) × List GateEvent :=
  match cached with
  | some bs => (.ok bs, [.cacheGet])
  | none =>
    match http with
    | .ok places =>
        let businesses := format_batch (pySliceTo limit places)
        (.ok businesses, [.cacheGet, .httpGet, .cacheSet])
    | .error e =>
        (.error ("Foursquare API error: " ++ e), [.cacheGet, .httpGet])

/-- `YelpSource._format_business` (yelp.py lines 136-160); a raising access
is caught and turned into `None`. -/
def yelp_format_business_core (b : Json) : Except Unit Json := do
  let bid ← b.getN "id"
  let nameV ← b.getN "name"
  let loc1 ← b.getD "location" (.obj [])
  let da ← asArr (← loc1.getD "display_address" (.arr []))
  let daStrs ← da.mapM asStr
  let loc2 ← b.getD "location" (.obj [])
  let city ← loc2.getN "city"
  let loc3 ← b.getD "location" (.obj [])
  let state ← loc3.getN "state"
  let loc4 ← b.getD "location" (.obj [])
  let zip ← loc4.getN "zip_code"
  let coord1 ← b.getD "coordinates" (.obj [])
  let lat ← coord1.getN "latitude"
  let coord2 ← b.getD "coordinates" (.obj [])
  let lng ← coord2.getN "longitude"
  let rating ← b.getN "rating"
  let reviewCount ← b.getN "review_count"
  let price ← b.getN "price"
  let rawCats ← asArr (← b.getD "categories" (.arr []))
  let cats ← rawCats.mapM (fun c => c.getN "title")
  let phone ← b.getN "display_phone"
  let image ← b.getN "image_url"
  let url ← b.getN "url"
  pure (.obj
    [("id", bid), ("name", nameV),
     ("address", .str (String.intercalate ", " daStrs)),
     ("city", city), ("state", state), ("zip_code", zip),
     ("latitude", lat), ("longitude", lng), ("rating", rating),
     ("review_count", reviewCount), ("price", price),
     ("categories", .arr cats), ("phone", phone), ("image_url", image),
     ("url", url), ("source", .str "yelp"), ("raw_data", b)])

/-- `YelpSource._format_business` with its `except` handler. -/
def yelp_format_business (b : Json) : Option Json :=
  match yelp_format_business_core b with
  | .ok j => some j
  | .error _ => none

/-- The normalization loop of `YelpSource.search_businesses`
(yelp.py lines 69-73). -/
def yelp_format_batch : List Json → List Json
  | [] => []
  | b :: bs =>
      match yelp_format_business b with
      | some j => if j.truthy then j :: yelp_format_batch bs else yelp_format_batch bs
      | none => yelp_format_batch bs

/-- `YelpSource.search_businesses` (yelp.py lines 30-79).  `budgetOk` is
what `can_make_request('yelp', 'search')` returned; `http` is the network
outcome with its parsed `businesses` list.  The budget gate is consulted
first, then the rate gate blocks, then the network request goes out, and a
successful response is recorded against the budget. -/
def yelp_search (budgetOk : Bool) (http : Except String (List Json)) :
    Except String (List Json) × List GateEvent :=
  if budgetOk then
    match http with
    | .ok data =>
        (.ok (yelp_format_batch data),
         [.budgetCheck, .rateWait, .httpGet, .budgetRecord])
    | .error e =>
        (.error ("Yelp API error: " ++ e), [.budgetCheck, .rateWait, .httpGet])
  else
    (.error "Daily limit reached for Yelp API", [.budgetCheck])

/-- `GooglePlacesSource._format_business` (google_places.py lines 146-164). -/
def google_format_business_core (place : Json) : Except Unit Json := do
  let pid ← place.getN "place_id"
  let nameV ← place.getN "name"
  let addr ← place.getN "vicinity"
  let geo1 ← (← place.getD "geometry" (.obj [])).getD "location" (.obj [])
  let lat ← geo1.getN "lat"
  let geo2 ← (← place.getD "geometry" (.obj [])).getD "location" (.obj [])
  let lng ← geo2.getN "lng"
  let rating ← place.getN "rating"
  let reviewCount ← place.getN "user_ratings_total"
  let priceLevel ← place.getN "price_level"
  let types ← place.getD "types" (.arr [])
  pure (.obj
    [("id", pid), ("name", nameV), ("address", addr), ("latitude", lat),
     ("longitude", lng), ("rating", rating), ("review_count", reviewCount),
     ("price_level", priceLevel), ("types", types),
     ("source", .str "google_places"), ("raw_data", place)])

/-- `GooglePlacesSource._format_business` with its `except` handler. -/
def google_format_business (place : Json) : Option Json :=
  match google_format_business_core place with
  | .ok j => some j
  | .error _ => none

/-- The normalization loop of `GooglePlacesSource.search_businesses`
(google_places.py lines 62-66), over `data.get('results', [])[:10]`. -/
def google_format_batch : List Json → List Json
  | [] => []
  | p :: ps =>
      match google_format_business p with
      | some j => if j.truthy then j :: google_format_batch ps else google_format_batch ps
      | none => google_format_batch ps

/-- `GooglePlacesSource.search_businesses` (google_places.py lines 26-72):
budget gate, rate gate, network request, record on success. -/
def google_search (budgetOk : Bool) (http : Except String (List Json)) :
    Except String (List Json) × List GateEvent :=
  if budgetOk then
    match http with
    | .ok results =>
        (.ok (google_format_batch (results.take 10)),
         [.budgetCheck, .rateWait, .httpGet, .budgetRecord])
    | .error e =>
        (.error ("Google Places API error: " ++ e),
         [.budgetCheck, .rateWait, .httpGet])
  else
    (.error "Budget limit reached for Google Places API", [.budgetCheck])

/-! ## DataCollector (services/data_collector.py)

The collector holds a source map that always contains `'mock'` and contains
`'foursquare'` when credentials are configured
(`_initialize_sources`, data_collector.py lines 26-48).  The behaviour of the
two concrete sources is supplied as oracles: the Foursquare oracle may raise
(`Except.error`), the mock generator is plain Python data construction with
no network dependency and is modelled total (its randomness is part of the
oracle).  The fields kept on a `Business` are the ones the collector and the
competitor analysis read: `name`, `rating` (absent when the payload had
none), `stats.tip_count` (absent when `stats` or `tip_count` is missing) and
the `data_source` tag the collector writes. -/

structure Business where
  name : String
  rating : Option ℚ
  tip_count : Option ℚ
  data_source : Option String
  deriving Repr, DecidableEq

structure Review where
  text : String
  rating : Option ℚ
  data_source : Option String
  deriving Repr, DecidableEq

structure Collector where
  hasFoursquare : Bool
  foursquareSearch : String → String → String → Int → Except String (List Business)
  mockSearch : String → String → String → Int → List Business
  foursquareDetails : String → Except String (Option Business)
  mockDetails : String → Option Business
  foursquareReviews : String → Int → Except String (List Review)
  mockReviews : String → Int → List Review

/-- `DataCollector.get_available_sources` (data_collector.py lines 50-52):
dict insertion order is mock first, then foursquare when configured. -/
def availableSources (c : Collector) : List String :=
  "mock" :: (if c.hasFoursquare then ["foursquare"] else [])

/-- `DataCollector.get_primary_source` (data_collector.py lines 54-58). -/
def primarySource (c : Collector) : String :=
  if c.hasFoursquare then "foursquare" else "mock"

/-- The `source == 'auto'` resolution step of `collect_businesses`
(data_collector.py lines 78-79). -/
def resolveSource (c : Collector) (source : String) : String :=
  if source = "auto" then primarySource c else source

/-- Errors surfaced by `collect_businesses`: the `ValueError` raised for an
unknown source name (data_collector.py line 84), and a re-raised source
exception (line 135). -/
inductive CollectError where
  | invalidSource (requested : String) (available : List String)
  | sourceFailure (msg : String)
  deriving Repr, DecidableEq

/-- One `data_source.search_businesses(...)` invocation made by the
collector, with the limit it passed down. -/
inductive CallEvent where
  | searchCall (src : String) (limit : Int)
  | detailsCall (src : String)
  | reviewsCall (src : String)
  deriving Repr, DecidableEq

structure CacheInfo where
  cached : Bool
  source : String
  deriving Repr, DecidableEq

/-- The dictionary returned by `collect_businesses`
(data_collector.py lines 103-116); `timestamp` is `_get_timestamp()`. -/
structure CollectResult where
  success : Bool
  source : String
  location : String
  query : String
  category : String
  count : Nat
  businesses : List Business
  timestamp : String
  cache_info : CacheInfo
  deriving Repr, DecidableEq

/-- Dispatch `self.sources[src].search_businesses(...)`; only called with
`src` drawn from the available sources. -/
def sourceSearchCall (c : Collector) (src location query category : String)
    (limit : Int) : Except String (List Business) :=
  if src = "mock" then .ok (c.mockSearch location query category limit)
  else c.foursquareSearch location query category limit

/-- `DataCollector.collect_businesses` (data_collector.py lines 60-135),
with fuel for the recursive mock fallback (the Python recursion re-enters
`collect_businesses` once with `source='mock'`, which cannot recurse again).
`now` is the `_get_timestamp()` value.  The second component is the trace of
source invocations. -/
def collectAux (c : Collector) (now : String) :
    Nat → String → String → String → String → Int →
    Except CollectError CollectResult × List CallEvent
  | 0, _, _, _, _, _ => (.error (.sourceFailure "fuel exhausted"), [])
  | fuel + 1, location, source, query, category, limit =>
    let src := resolveSource c source
    if src ∈ availableSources c then
      match sourceSearchCall c src location query category limit with
      | .ok bs =>
          let tagged := bs.map (fun b => { b with data_source := some src })
          (.ok { success := true
                 source := src
                 location := location
                 query := query
                 category := category
                 count := tagged.length
                 businesses := tagged
                 timestamp := now
                 cache_info :=
                   { cached := false
                     source := if src ≠ "mock" then "live_api" else "generated" } },
           [.searchCall src limit])
      | .error e =>
          -- fallback: `if source != 'mock' and 'mock' in self.sources`;
          -- mock is always in the source map by construction
          if src ≠ "mock" then
            let rec_ := collectAux c now fuel location "mock" query category limit
            (rec_.1, .searchCall src limit :: rec_.2)
          else
            (.error (.sourceFailure e), [.searchCall src limit])
    else
      (.error (.invalidSource src (availableSources c)), [])

/-- `DataCollector.collect_businesses`; fuel 2 covers the one-shot mock
fallback. -/
def collect_businesses (c : Collector) (now location source query category : String)
    (limit : Int) : Except CollectError CollectResult × List CallEvent :=
  collectAux c now 2 location source query category limit

/-- `DataCollector.get_business_details` (data_collector.py lines 137-149):
unknown source gives `None`; a raising adapter call gives `None`; a found
record gets the `data_source` tag. -/
def get_business_details (c : Collector) (businessId source : String) :
    Option Business × List CallEvent :=
  if source ∈ availableSources c then
    match (if source = "mock" then .ok (c.mockDetails businessId)
           else c.foursquareDetails businessId) with
    | .ok d => (d.map (fun b => { b with data_source := some source }),
                [.detailsCall source])
    | .error _ => (none, [.detailsCall source])
  else (none, [])

/-- `DataCollector.get_business_reviews` (data_collector.py lines 151-164):
unknown source gives `[]`; a raising adapter call gives `[]`. -/
def get_business_reviews (c : Collector) (businessId source : String)
    (limit : Int) : List Review × List CallEvent :=
  if source ∈ availableSources c then
    match (if source = "mock" then .ok (c.mockReviews businessId limit)
           else c.foursquareReviews businessId limit) with
    | .ok rs => (rs.map (fun r => { r with data_source := some source }),
                 [.reviewsCall source])
    | .error _ => ([], [.reviewsCall source])
  else ([], [])

/-- The competitor filter loop (data_collector.py lines 179-182): keep the
businesses whose lowercased name does not contain the lowercased target. -/
def filterCompetitors (business_name : String) : List Business → List Business
  | [] => []
  | b :: bs =>
      if containsLower b.name business_name then filterCompetitors business_name bs
      else b :: filterCompetitors business_name bs

/-- `ratings = [b.get('rating', 0) for b in competitors if b.get('rating')]`
(data_collector.py line 188): only truthy ratings survive, so a missing or
zero rating is skipped. -/
def ratingsOf : List Business → List ℚ
  | [] => []
  | b :: bs =>
      match b.rating with
      | some q => if q ≠ 0 then q :: ratingsOf bs else ratingsOf bs
      | none => ratingsOf bs

/-- `b.get('stats', {}).get('tip_count', 0)` (data_collector.py line 191). -/
def tipCountOrZero (b : Business) : ℚ := b.tip_count.getD 0

structure CompetitorAnalysis where
  average_competitor_rating : ℚ
  average_competitor_reviews : ℚ
  market_saturation : Nat
  deriving Repr, DecidableEq

/-- The dictionary returned by `collect_competitors`
(data_collector.py lines 196-207). -/
structure CompetitorResult where
  success : Bool
  source : String
  target_business : String
  competitors_count : Nat
  competitors : List Business
  analysis : CompetitorAnalysis
  deriving Repr, DecidableEq

/-- `DataCollector.collect_competitors` (data_collector.py lines 166-207):
search through `collect_businesses` with `source='auto'`,
`query=category or ""` and an inflated `limit * 2`, filter out name matches,
truncate to `limit`, average the truthy ratings and the tip counts, rounding
the reported means to 2 and 0 decimal places. -/
def collect_competitors (c : Collector) (now business_name location category : String)
    (limit : Int) : Except CollectError CompetitorResult × List CallEvent :=
  let sr := collect_businesses c now location "auto"
    (if category = "" then "" else category) "" (limit * 2)
  match sr with
  | (.error e, evs) => (.error e, evs)
  | (.ok res, evs) =>
    let competitors := pySliceTo limit (filterCompetitors business_name res.businesses)
    let averages : ℚ × ℚ :=
      match competitors with
      | [] => (0, 0)
      | _ :: _ =>
          let ratings := ratingsOf competitors
          let avg_rating : ℚ :=
            match ratings with
            | [] => 0
            | _ :: _ => ratings.sum / (ratings.length : ℚ)
          let review_counts := competitors.map tipCountOrZero
          let avg_reviews : ℚ :=
            match review_counts with
            | [] => 0
            | _ :: _ => review_counts.sum / (review_counts.length : ℚ)
          (avg_rating, avg_reviews)
    (.ok { success := true
           source := res.source
           target_business := business_name
           competitors_count := competitors.length
           competitors := competitors
           analysis :=
             { average_competitor_rating := pyRoundTo 2 averages.1
               average_competitor_reviews := pyRoundTo 0 averages.2
               market_saturation := competitors.length } }, evs)

/-- The `limit` validation of `BusinessSearchView.get`
(views.py line 33): `limit = min(max(limit, 1), 50)`. -/
def business_search_view_limit (raw : Int) : Int := min (max raw 1) 50

/-! ## Concrete instances used by witnesses and counterexamples -/

/-- A collector whose Foursquare credentials are absent: only the mock
source is registered; the mock generator yields `bs`. -/
def mockOnlyCollector (bs : List Business) : Collector :=
  { hasFoursquare := false
    foursquareSearch := fun _ _ _ _ => .error "not configured"
    mockSearch := fun _ _ _ _ => bs
    foursquareDetails := fun _ => .error "not configured"
    mockDetails := fun _ => none
    foursquareReviews := fun _ _ => .error "not configured"
    mockReviews := fun _ _ => [] }

/-- A collector with a configured Foursquare source whose every call raises
with message `msg`; the mock generator yields `bs`. -/
def failingFsqCollector (msg : String) (bs : List Business) : Collector :=
  { hasFoursquare := true
    foursquareSearch := fun _ _ _ _ => .error msg
    mockSearch := fun _ _ _ _ => bs
    foursquareDetails := fun _ => .error msg
    mockDetails := fun _ => none
    foursquareReviews := fun _ _ => .error msg
    mockReviews := fun _ _ => [] }

/-- Two search results for the competitor-analysis scenarios: one with a
zero rating, one rated 4; neither name contains "Target". -/
def c8Businesses : List Business :=
  [{ name := "Alpha", rating := some 0, tip_count := some 2, data_source := none },
   { name := "Beta", rating := some 4, tip_count := some 2, data_source := none }]

/-- Projection of the reported average rating out of a competitor result. -/
def reportedAvgRating : Except CollectError CompetitorResult → ℚ
  | .ok r => r.analysis.average_competitor_rating
  | .error _ => 0

/-- Projection of the returned competitor list. -/
def reportedCompetitors : Except CollectError CompetitorResult → List Business
  | .ok r => r.competitors
  | .error _ => []

/-- The search result a mock-only collector built over `c8Businesses`
returns for the competitor-analysis search (query `""`, limit `5 * 2`). -/
def c8SearchResult : CollectResult :=
  { success := true
    source := "mock"
    location := "NYC"
    query := ""
    category := ""
    count := 2
    businesses := [{ name := "Alpha", rating := some 0, tip_count := some 2,
                     data_source := some "mock" },
                   { name := "Beta", rating := some 4, tip_count := some 2,
                     data_source := some "mock" }]
    timestamp := "t0"
    cache_info := { cached := false, source := "generated" } }

/-- A Foursquare payload whose `location` is not a dict: formatting it
raises inside `_format_business` and yields `None`. -/
def badPlace : Json := .obj [("location", .str "somewhere")]

/-- A well-formed minimal Foursquare payload. -/
def goodPlace (nm : String) : Json :=
  .obj [("fsq_id", .str nm), ("name", .str nm), ("rating", .num 8)]

/-! # Theorems -/

theorem alookup_aset_self (k : String) (v : α) (m : List (String × α)) :
    alookup k (aset k v m) = some v := by
  induction m with
  | nil => simp [aset, alookup]
  | cons hd tl ih =>
      obtain ⟨k', v'⟩ := hd
      by_cases h : k = k' <;> simp [aset, alookup, h, ih]

theorem alookup_aset_ne (k k' : String) (v : α) (m : List (String × α))
    (h : k ≠ k') : alookup k (aset k' v m) = alookup k m := by
  induction m with
  | nil => simp [aset, alookup, h]
  | cons hd tl ih =>
      obtain ⟨k'', v''⟩ := hd
      by_cases h1 : k' = k''
      · subst h1; simp [aset, alookup, h]
      · by_cases h2 : k = k'' <;> simp [aset, alookup, h1, h2, ih]

theorem minList_mem : ∀ (l : List ℚ), l ≠ [] → minList l ∈ l
  | [t], _ => by simp [minList]
  | t :: u :: ts, _ => by
      simp only [minList]
      rcases min_cases t (minList (u :: ts)) with ⟨h, _⟩ | ⟨h, _⟩
      · rw [h]; exact List.mem_cons_self _ _
      · rw [h]; exact List.mem_cons_of_mem _ (minList_mem (u :: ts) (by simp))

theorem initDay_total_cost (today : String) (d : BudgetData) :
    (initDay today d).total_cost = d.total_cost := by
  unfold initDay; cases alookup today d.daily_usage <;> rfl

theorem initDay_monthly (today : String) (d : BudgetData) :
    (initDay today d).monthly_usage = d.monthly_usage := by
  unfold initDay; cases alookup today d.daily_usage <;> rfl

theorem initDay_alerts (today : String) (d : BudgetData) :
    (initDay today d).alerts_sent = d.alerts_sent := by
  unfold initDay; cases alookup today d.daily_usage <;> rfl

theorem initDay_counts (today : String) (d : BudgetData) (day a : String) :
    dailyCountOf (initDay today d) day a = dailyCountOf d day a := by
  unfold initDay
  cases h : alookup today d.daily_usage with
  | some u => rfl
  | none =>
      unfold dailyCountOf
      by_cases hd : day = today
      · subst hd
        simp [alookup_aset_self, h, alookup]
      · rw [show alookup day (aset today ([] : List (String × Nat)) d.daily_usage)
              = alookup day d.daily_usage from alookup_aset_ne day today _ _ hd]

theorem initApi_total_cost (today api : String) (d : BudgetData) :
    (initApi today api d).total_cost = d.total_cost := by
  unfold initApi
  cases alookup api ((alookup today d.daily_usage).getD []) <;> rfl

theorem initApi_monthly (today api : String) (d : BudgetData) :
    (initApi today api d).monthly_usage = d.monthly_usage := by
  unfold initApi
  cases alookup api ((alookup today d.daily_usage).getD []) <;> rfl

theorem initApi_alerts (today api : String) (d : BudgetData) :
    (initApi today api d).alerts_sent = d.alerts_sent := by
  unfold initApi
  cases alookup api ((alookup today d.daily_usage).getD []) <;> rfl

theorem initApi_counts (today api : String) (d : BudgetData) (day a : String) :
    dailyCountOf (initApi today api d) day a = dailyCountOf d day a := by
  unfold initApi
  cases h : alookup api ((alookup today d.daily_usage).getD []) with
  | some v => rfl
  | none =>
      unfold dailyCountOf
      by_cases hd : day = today
      · subst hd
        rw [show alookup day (aset day (aset api 0 ((alookup day d.daily_usage).getD []))
              d.daily_usage) = some (aset api 0 ((alookup day d.daily_usage).getD []))
            from alookup_aset_self day _ _]
        simp only [Option.getD_some]
        by_cases ha : a = api
        · subst ha
          rw [show alookup a (aset a 0 ((alookup day d.daily_usage).getD []))
                = some 0 from alookup_aset_self a _ _]
          simp [h]
        · rw [show alookup a (aset api 0 ((alookup day d.daily_usage).getD []))
                = alookup a ((alookup day d.daily_usage).getD [])
              from alookup_aset_ne a api _ _ ha]
      · rw [show alookup day (aset today (aset api 0 ((alookup today d.daily_usage).getD []))
              d.daily_usage) = alookup day d.daily_usage
            from alookup_aset_ne day today _ _ hd]

theorem initUsage_total_cost (today api : String) (d : BudgetData) :
    (initUsage today api d).total_cost = d.total_cost := by
  unfold initUsage; rw [initApi_total_cost, initDay_total_cost]

theorem initUsage_monthly (today api : String) (d : BudgetData) :
    (initUsage today api d).monthly_usage = d.monthly_usage := by
  unfold initUsage; rw [initApi_monthly, initDay_monthly]

theorem initUsage_alerts (today api : String) (d : BudgetData) :
    (initUsage today api d).alerts_sent = d.alerts_sent := by
  unfold initUsage; rw [initApi_alerts, initDay_alerts]

theorem initUsage_counts (today api : String) (d : BudgetData) (day a : String) :
    dailyCountOf (initUsage today api d) day a = dailyCountOf d day a := by
  unfold initUsage; rw [initApi_counts, initDay_counts]

/-- C6 counterexample: on a fresh tracker state, `can_make_request` does not
leave the budget state unchanged — it inserts the zero-count entries
`daily_usage[today] = {}` and `daily_usage[today][api_name] = 0`
(budget_control.py lines 63-67). -/
theorem budget_gate_mutation_cex :
    (can_make_request "foursquare" "venues" "2024-01-01" initialBudget).2.daily_usage
        = [("2024-01-01", [("foursquare", 0)])] ∧
    initialBudget.daily_usage = [] ∧
    (can_make_request "foursquare" "venues" "2024-01-01" initialBudget).2
        ≠ initialBudget := by
  have h : can_make_request "foursquare" "venues" "2024-01-01" initialBudget =
      (true, { initialBudget with
                 daily_usage := [("2024-01-01", [("foursquare", 0)])] }) := by
    simp only [can_make_request, initUsage, initDay, initApi, alookup, aset,
      dailyCountOf, dailyLimitOf, requestCost, daily_limits, cost_per_request,
      initialBudget]
    simp
  refine ⟨by rw [h], rfl, ?_⟩
  rw [h]
  intro heq
  have := congrArg BudgetData.daily_usage heq
  simp [initialBudget] at this

/-- C6 (amended): `can_make_request` returns `false` exactly when today's
count for the provider has reached its daily cap or `total_cost` plus the
operation's tabulated cost would exceed the 5-dollar ceiling; it never
changes `total_cost`, the alert log, `monthly_usage`, or any recorded count
(read with default 0), and it performs no store write (its signature takes
no store) — but it may insert missing zero-count `daily_usage` entries, so
the state is not literally unchanged. -/
theorem budget_gate_behaviour (api endpoint today : String) (d : BudgetData) :
    ((can_make_request api endpoint today d).1 = false ↔
      (dailyLimitOf api ≤ dailyCountOf d today api ∨
        5 < d.total_cost + requestCost api endpoint)) ∧
    (can_make_request api endpoint today d).2.total_cost = d.total_cost ∧
    (can_make_request api endpoint today d).2.alerts_sent = d.alerts_sent ∧
    (can_make_request api endpoint today d).2.monthly_usage = d.monthly_usage ∧
    ∀ day a, dailyCountOf (can_make_request api endpoint today d).2 day a
        = dailyCountOf d day a := by
  have hct := initUsage_counts today api d today api
  have htc := initUsage_total_cost today api d
  have hrw2 : (can_make_request api endpoint today d).2 = initUsage today api d := by
    simp only [can_make_request]
    split_ifs <;> rfl
  refine ⟨?_, ?_, ?_, ?_, ?_⟩
  · by_cases h1 : dailyLimitOf api ≤ dailyCountOf (initUsage today api d) today api
    · have hfst : (can_make_request api endpoint today d).1 = false := by
        simp only [can_make_request, if_pos h1]
      rw [hfst]
      exact iff_of_true rfl (Or.inl (hct ▸ h1))
    · by_cases h2 : 5 < (initUsage today api d).total_cost + requestCost api endpoint
      · have hfst : (can_make_request api endpoint today d).1 = false := by
          simp only [can_make_request, if_neg h1, if_pos h2]
        rw [hfst]
        exact iff_of_true rfl (Or.inr (htc ▸ h2))
      · have hfst : (can_make_request api endpoint today d).1 = true := by
          simp only [can_make_request, if_neg h1, if_neg h2]
        rw [hfst]
        refine iff_of_false (by simp) ?_
        rintro (h | h)
        · rw [← hct] at h; exact h1 h
        · rw [← htc] at h; exact h2 h
  · rw [hrw2]; exact initUsage_total_cost today api d
  · rw [hrw2]; exact initUsage_alerts today api d
  · rw [hrw2]; exact initUsage_monthly today api d
  · intro day a; rw [hrw2]; exact initUsage_counts today api d day a

theorem check_alerts_total_cost (today : String) (d : BudgetData) (s : Store) :
    (check_alerts today d s).1.total_cost = d.total_cost := rfl

theorem record_request_total_cost (api endpoint today : String) (d : BudgetData)
    (s : Store) :
    (record_request api endpoint today d s).1.total_cost
      = d.total_cost + requestCost api endpoint := by
  simp only [record_request, check_alerts, saveBudget]
  rw [initUsage_total_cost]

theorem record_request_store (api endpoint today : String) (d : BudgetData)
    (s : Store) :
    (record_request api endpoint today d s).2.1
      = ⟨some (record_request api endpoint today d s).1⟩ := by
  simp only [record_request, check_alerts, saveBudget]

theorem runRecords_total (d : BudgetData) (s : Store)
    (ops : List (String × String × String)) :
    (runRecords d s ops).1.total_cost
      = d.total_cost + (ops.map (fun o => requestCost o.2.1 o.2.2)).sum := by
  induction ops generalizing d s with
  | nil => simp [runRecords]
  | cons op ops ih =>
      obtain ⟨today, api, endpoint⟩ := op
      simp only [runRecords, List.map_cons, List.sum_cons]
      rw [ih, record_request_total_cost]
      ring

theorem runRecords_store (d : BudgetData) (s : Store)
    (ops : List (String × String × String)) (h : s.contents = some d) :
    (runRecords d s ops).2.contents = some (runRecords d s ops).1 := by
  induction ops generalizing d s with
  | nil => simpa [runRecords] using h
  | cons op ops ih =>
      obtain ⟨today, api, endpoint⟩ := op
      simp only [runRecords]
      exact ih _ _ (by rw [record_request_store])

/-- C4: starting from a freshly constructed tracker (`_load_budget` on an
arbitrary store), after any sequence of recorded requests
`(today, api, endpoint)` the running `total_cost` equals its starting value
plus the sum of the tabulated per-request costs — exactly, hence within the
1e-9 tolerance — the whole state is persisted by every single
`record_request` call, and a tracker reconstructed from the persisted store
(simulated restart) reads back the same `total_cost`. -/
theorem budget_record_request_accumulates (s₀ : Store)
    (ops : List (String × String × String)) :
    (∀ api endpoint today d s,
        ((record_request api endpoint today d s).2.1).contents
          = some (record_request api endpoint today d s).1) ∧
    (runRecords (loadBudget s₀).1 (loadBudget s₀).2 ops).1.total_cost
        = (loadBudget s₀).1.total_cost
          + (ops.map (fun o => requestCost o.2.1 o.2.2)).sum ∧
    |(runRecords (loadBudget s₀).1 (loadBudget s₀).2 ops).1.total_cost
        - ((loadBudget s₀).1.total_cost
            + (ops.map (fun o => requestCost o.2.1 o.2.2)).sum)|
        ≤ 1 / 1000000000 ∧
    (loadBudget (runRecords (loadBudget s₀).1 (loadBudget s₀).2 ops).2).1.total_cost
        = (runRecords (loadBudget s₀).1 (loadBudget s₀).2 ops).1.total_cost := by
  have hload : (loadBudget s₀).2.contents = some (loadBudget s₀).1 := by
    obtain ⟨c⟩ := s₀
    cases c <;> rfl
  have hstore := runRecords_store _ _ ops hload
  refine ⟨fun api endpoint today d s => by rw [record_request_store],
          runRecords_total _ _ _, ?_, ?_⟩
  · rw [runRecords_total]
    simp
  · have hlb : ∀ (s : Store) (d : BudgetData), s.contents = some d →
        (loadBudget s).1 = d := by
      intro s d h
      simp [loadBudget, h]
    rw [hlb _ _ hstore]

/-- Witness for the C6 theorem at a concrete provider, operation, day and
the fresh tracker state. -/
theorem budget_gate_behaviour_witness :
    ((can_make_request "yelp" "search" "2024-01-01" initialBudget).1 = false ↔
      (dailyLimitOf "yelp" ≤ dailyCountOf initialBudget "2024-01-01" "yelp" ∨
        5 < initialBudget.total_cost + requestCost "yelp" "search")) ∧
    (can_make_request "yelp" "search" "2024-01-01" initialBudget).2.total_cost
        = initialBudget.total_cost ∧
    (can_make_request "yelp" "search" "2024-01-01" initialBudget).2.alerts_sent
        = initialBudget.alerts_sent ∧
    (can_make_request "yelp" "search" "2024-01-01" initialBudget).2.monthly_usage
        = initialBudget.monthly_usage ∧
    ∀ day a, dailyCountOf
        (can_make_request "yelp" "search" "2024-01-01" initialBudget).2 day a
        = dailyCountOf initialBudget day a :=
  budget_gate_behaviour "yelp" "search" "2024-01-01" initialBudget

/-- Witness for the C4 theorem at a concrete empty store and a single
recorded Yelp search request. -/
theorem budget_record_request_accumulates_witness :
    (∀ api endpoint today d s,
        ((record_request api endpoint today d s).2.1).contents
          = some (record_request api endpoint today d s).1) ∧
    (runRecords (loadBudget ⟨none⟩).1 (loadBudget ⟨none⟩).2
        [("2024-01-01", "yelp", "search")]).1.total_cost
        = (loadBudget ⟨none⟩).1.total_cost
          + (([("2024-01-01", "yelp", "search")] :
              List (String × String × String)).map
              (fun o => requestCost o.2.1 o.2.2)).sum ∧
    |(runRecords (loadBudget ⟨none⟩).1 (loadBudget ⟨none⟩).2
        [("2024-01-01", "yelp", "search")]).1.total_cost
        - ((loadBudget ⟨none⟩).1.total_cost
            + (([("2024-01-01", "yelp", "search")] :
                List (String × String × String)).map
                (fun o => requestCost o.2.1 o.2.2)).sum)|
        ≤ 1 / 1000000000 ∧
    (loadBudget (runRecords (loadBudget ⟨none⟩).1 (loadBudget ⟨none⟩).2
        [("2024-01-01", "yelp", "search")]).2).1.total_cost
        = (runRecords (loadBudget ⟨none⟩).1 (loadBudget ⟨none⟩).2
            [("2024-01-01", "yelp", "search")]).1.total_cost :=
  budget_record_request_accumulates ⟨none⟩ [("2024-01-01", "yelp", "search")]

/-- C5 counterexample: `RateLimiter` with limit 1, sequential arrivals at
instants 0, 1 and 60 (each arrival no earlier than the previous admission,
`seqOK`).  The admissions happen at 0, 60 and 61, so the rolling 60-second
window starting at 30 contains 2 > 1 admitted requests: the claim's
"at most N admitted requests fall inside any rolling 60-second window"
clause is false for the code, because `wait_if_needed` records the pre-sleep
arrival instant rather than the admission instant. -/
theorem rate_limiter_window_overflow_cex :
    runCalls 1 [] [0, 1, 60] = [0, 60, 61] ∧
    seqOK 1 [] [0, 1, 60] = true ∧
    admissionsWithin 30 (runCalls 1 [] [0, 1, 60]) = 2 ∧ 1 < 2 := by
  norm_num [runCalls, seqOK, admissionsWithin, wait_if_needed, List.filter_cons,
    minList]

/-- C5 (amended): for every configured limit `n ≥ 1`, window and arrival
instant, `wait_if_needed` never rejects the call — it always records the
arrival into the pruned window — its delay is never negative, and whenever
the pruned window already holds at least `n` timestamps the delay is exactly
`60 - (now - oldest_remaining_timestamp)`. -/
theorem rate_limiter_step_behaviour (n : Nat) (window : List ℚ) (now : ℚ)
    (hn : 1 ≤ n) :
    0 ≤ (wait_if_needed n window now).delay ∧
    (wait_if_needed n window now).window =
      window.filter (fun t => decide (now - t < 60)) ++ [now] ∧
    (n ≤ (window.filter (fun t => decide (now - t < 60))).length →
      (wait_if_needed n window now).delay =
        60 - (now - minList (window.filter (fun t => decide (now - t < 60))))) := by
  by_cases hlen : n ≤ (window.filter (fun t => decide (now - t < 60))).length
  · have hne : window.filter (fun t => decide (now - t < 60)) ≠ [] := by
      intro h0
      rw [h0] at hlen
      simp only [List.length_nil] at hlen
      omega
    have hmem := minList_mem _ hne
    have hlt : now - minList (window.filter (fun t => decide (now - t < 60))) < 60 :=
      of_decide_eq_true (List.mem_filter.mp hmem).2
    have hpos : 0 < 60 - (now - minList (window.filter (fun t => decide (now - t < 60)))) := by
      linarith
    have hw : wait_if_needed n window now =
        { delay := 60 - (now - minList (window.filter (fun t => decide (now - t < 60))))
          window := window.filter (fun t => decide (now - t < 60)) ++ [now] } := by
      unfold wait_if_needed
      rw [if_pos hlen]
      simp only [if_pos hpos]
    rw [hw]
    exact ⟨le_of_lt hpos, rfl, fun _ => rfl⟩
  · have hw : wait_if_needed n window now =
        { delay := 0
          window := window.filter (fun t => decide (now - t < 60)) ++ [now] } := by
      unfold wait_if_needed
      rw [if_neg hlen]
    rw [hw]
    exact ⟨le_refl 0, rfl, fun h => absurd h hlen⟩

/-- Witness for the amended C5 theorem at limit 1, window `[0]`, arrival 1:
the pruned window holds one timestamp, so the delay is `60 - (1 - 0)`. -/
theorem rate_limiter_step_behaviour_witness :
    0 ≤ (wait_if_needed 1 [0] 1).delay ∧
    (wait_if_needed 1 [0] 1).window =
      [(0:ℚ)].filter (fun t => decide ((1:ℚ) - t < 60)) ++ [1] ∧
    (wait_if_needed 1 [0] 1).delay =
      60 - (1 - minList ([(0:ℚ)].filter (fun t => decide ((1:ℚ) - t < 60)))) := by
  have h := rate_limiter_step_behaviour 1 [0] 1 (by decide)
  exact ⟨h.1, h.2.1, h.2.2 (by norm_num [List.filter_cons])⟩

/-- C9: Foursquare normalization is a pure function of the payload —
normalizing the same payload twice yields identical canonical output — and a
payload that raises during formatting yields `None` and is dropped from the
batch while every other record is still normalized. -/
theorem format_business_pure_and_record_scoped (p : Json)
    (pre post : List Json) (r : Json) (hr : format_business r = none) :
    format_business p = format_business p ∧
    format_batch (pre ++ r :: post) = format_batch (pre ++ post) := by
  refine ⟨rfl, ?_⟩
  induction pre with
  | nil => simp only [List.nil_append, format_batch, hr]
  | cons a as ih =>
      simp only [List.cons_append, format_batch]
      cases h : format_business a with
      | none => exact ih
      | some j =>
          dsimp only
          simp only [List.append_eq]
          rw [ih]

/-- Witness for C9: a payload whose `location` field is a string (so
`.get` on it raises) is dropped, while its two well-formed neighbours are
normalized as if it were absent. -/
theorem format_business_pure_and_record_scoped_witness :
    format_business (goodPlace "A") = format_business (goodPlace "A") ∧
    format_batch ([goodPlace "A"] ++ badPlace :: [goodPlace "B"])
      = format_batch ([goodPlace "A"] ++ [goodPlace "B"]) :=
  format_business_pure_and_record_scoped (goodPlace "A") [goodPlace "A"]
    [goodPlace "B"] badPlace (by rfl)

/-- C2 counterexample: `FoursquareSource.search_businesses` on a cache miss
issues the network request after only the cache lookup: its effect trace
contains `httpGet` but neither a Budget-Governor nor a Rate-Governor
consultation.  The claim that both `can_make_request` and `wait_if_needed`
are consulted before every real-adapter network call is false for the
Foursquare adapter. -/
theorem foursquare_no_governor_cex :
    (foursquare_search none (.ok []) 10).2 = [.cacheGet, .httpGet, .cacheSet] ∧
    GateEvent.httpGet ∈ (foursquare_search none (.ok []) 10).2 ∧
    GateEvent.budgetCheck ∉ (foursquare_search none (.ok []) 10).2 ∧
    GateEvent.rateWait ∉ (foursquare_search none (.ok []) 10).2 := by
  have h : (foursquare_search none (.ok []) 10).2
      = [.cacheGet, .httpGet, .cacheSet] := rfl
  refine ⟨h, ?_, ?_, ?_⟩ <;> rw [h] <;> decide

/-- C2 (amended): the Yelp and Google Places adapters consult the Budget
Governor and then the Rate Governor before any network request goes out,
but the Foursquare adapter consults neither on any path. -/
theorem adapters_gate_consultation (cached : Option (List Json))
    (http httpY httpG : Except String (List Json)) (limit : Int)
    (bOkY bOkG : Bool) :
    (GateEvent.budgetCheck ∉ (foursquare_search cached http limit).2 ∧
     GateEvent.rateWait ∉ (foursquare_search cached http limit).2) ∧
    (GateEvent.httpGet ∈ (yelp_search bOkY httpY).2 →
      (yelp_search bOkY httpY).2.take 3
        = [.budgetCheck, .rateWait, .httpGet]) ∧
    (GateEvent.httpGet ∈ (google_search bOkG httpG).2 →
      (google_search bOkG httpG).2.take 3
        = [.budgetCheck, .rateWait, .httpGet]) := by
  refine ⟨?_, ?_, ?_⟩
  · unfold foursquare_search
    cases cached with
    | some bs => simp
    | none =>
        cases http with
        | ok places => simp
        | error e => simp
  · cases bOkY with
    | true =>
        cases httpY with
        | ok data => intro _; rfl
        | error e => intro _; rfl
    | false => intro hmem; simp [yelp_search] at hmem
  · cases bOkG with
    | true =>
        cases httpG with
        | ok results => intro _; rfl
        | error e => intro _; rfl
    | false => intro hmem; simp [google_search] at hmem

/-- Witness for the amended C2 theorem: concrete cache-miss Foursquare run
and successful Yelp/Google runs. -/
theorem adapters_gate_consultation_witness :
    (GateEvent.budgetCheck ∉ (foursquare_search none (.ok []) 5).2 ∧
     GateEvent.rateWait ∉ (foursquare_search none (.ok []) 5).2) ∧
    (yelp_search true (.ok [])).2.take 3 = [.budgetCheck, .rateWait, .httpGet] ∧
    (google_search true (.ok [])).2.take 3 = [.budgetCheck, .rateWait, .httpGet] := by
  have h := adapters_gate_consultation none (.ok []) (.ok []) (.ok []) 5 true true
  exact ⟨h.1, h.2.1 (by decide), h.2.2 (by decide)⟩

/-- C7: an explicit source name that is not among the available sources (and
is not the `auto` keyword) makes `collect_businesses` raise the fatal
invalid-source `ValueError` immediately: the returned error carries the
requested name and the available list, and the empty invocation trace shows
that no adapter call and no mock fallback was attempted. -/
theorem unknown_source_invalid_error (c : Collector)
    (now location name query category : String) (limit : Int)
    (hauto : name ≠ "auto") (hmem : name ∉ availableSources c) :
    collect_businesses c now location name query category limit
      = (.error (.invalidSource name (availableSources c)), []) := by
  simp only [collect_businesses, collectAux, resolveSource, if_neg hauto]
  simp [hmem]

/-- Witness for C7: the spec's `"bogus"` scenario against a mock-only
collector. -/
theorem unknown_source_invalid_error_witness :
    collect_businesses (mockOnlyCollector []) "t0" "NYC" "bogus" "" "" 10
      = (.error (.invalidSource "bogus" ["mock"]), []) := by
  have h := unknown_source_invalid_error (mockOnlyCollector []) "t0" "NYC"
    "bogus" "" "" 10 (by decide) (by decide)
  exact h

/-- C10: `get_business_details` and `get_business_reviews` return `None`
respectively `[]` both for an unknown source name (with no adapter call at
all) and when the adapter raises; the single-entry invocation traces show
that no mock fallback is ever attempted for details or reviews. -/
theorem details_reviews_error_absorption (c : Collector) (bid src : String)
    (limit : Int) (msgD msgR : String) :
    (src ∉ availableSources c →
        get_business_details c bid src = (none, []) ∧
        get_business_reviews c bid src limit = ([], [])) ∧
    (c.hasFoursquare = true → c.foursquareDetails bid = .error msgD →
        get_business_details c bid "foursquare"
          = (none, [.detailsCall "foursquare"])) ∧
    (c.hasFoursquare = true → c.foursquareReviews bid limit = .error msgR →
        get_business_reviews c bid "foursquare" limit
          = ([], [.reviewsCall "foursquare"])) := by
  refine ⟨fun h => ⟨?_, ?_⟩, fun hF hD => ?_, fun hF hR => ?_⟩
  · simp [get_business_details, h]
  · simp [get_business_reviews, h]
  · have hmem : "foursquare" ∈ availableSources c := by
      simp [availableSources, hF]
    simp [get_business_details, hmem, hD]
  · have hmem : "foursquare" ∈ availableSources c := by
      simp [availableSources, hF]
    simp [get_business_reviews, hmem, hR]

/-- Witness for C10: a collector whose Foursquare adapter raises, probed
with the unknown source `"bogus"` and with `"foursquare"`. -/
theorem details_reviews_error_absorption_witness :
    (get_business_details (failingFsqCollector "boom" []) "b1" "bogus"
        = (none, []) ∧
     get_business_reviews (failingFsqCollector "boom" []) "b1" "bogus" 3
        = ([], [])) ∧
    get_business_details (failingFsqCollector "boom" []) "b1" "foursquare"
        = (none, [.detailsCall "foursquare"]) ∧
    get_business_reviews (failingFsqCollector "boom" []) "b1" "foursquare" 3
        = ([], [.reviewsCall "foursquare"]) := by
  have h := details_reviews_error_absorption (failingFsqCollector "boom" [])
    "b1" "bogus" 3 "boom" "boom"
  have h2 := details_reviews_error_absorption (failingFsqCollector "boom" [])
    "b1" "foursquare" 3 "boom" "boom"
  exact ⟨h.1 (by decide), h2.2.1 rfl rfl, h2.2.2 rfl rfl⟩

/-- C1 counterexample: when the configured Foursquare source raises, the
dictionary `collect_businesses` finally returns is the very same value a
direct `source='mock'` request produces — `source == "mock"`,
`success == true`, but the result carries no fallback flag of any kind (the
returned dictionary has exactly the keys of data_collector.py lines
103-116), so the claim's "flag set indicating the request was served as a
fallback" is false for the code. -/
theorem fallback_has_no_flag_cex :
    (collect_businesses (failingFsqCollector "boom"
        [{ name := "Beta", rating := some 4, tip_count := some 2,
           data_source := none }]) "t0" "NYC" "foursquare" "q" "cat" 7).1
      = (collect_businesses (failingFsqCollector "boom"
          [{ name := "Beta", rating := some 4, tip_count := some 2,
             data_source := none }]) "t0" "NYC" "mock" "q" "cat" 7).1 ∧
    (collect_businesses (failingFsqCollector "boom"
        [{ name := "Beta", rating := some 4, tip_count := some 2,
           data_source := none }]) "t0" "NYC" "foursquare" "q" "cat" 7).1
      = .ok { success := true
              source := "mock"
              location := "NYC"
              query := "q"
              category := "cat"
              count := 1
              businesses := [{ name := "Beta", rating := some 4,
                               tip_count := some 2, data_source := some "mock" }]
              timestamp := "t0"
              cache_info := { cached := false, source := "generated" } } := by
  constructor <;> rfl

/-- C1 (amended): whenever the resolved source is the non-mock provider and
its call raises, `collect_businesses` retries the same logical request once
against mock and returns a successful result with `source == "mock"` — but
sets no fallback flag: the returned value is identical to that of a direct
mock request, and only the internal invocation trace distinguishes the two. -/
theorem fallback_result_is_plain_mock_result (c : Collector)
    (now location source query category msg : String) (limit : Int)
    (hres : resolveSource c source = "foursquare")
    (hF : c.hasFoursquare = true)
    (hfail : c.foursquareSearch location query category limit = .error msg) :
    (collect_businesses c now location source query category limit).1
      = (collect_businesses c now location "mock" query category limit).1 ∧
    (∃ r, (collect_businesses c now location source query category limit).1
        = .ok r ∧ r.source = "mock" ∧ r.success = true) ∧
    (collect_businesses c now location source query category limit).2
      = [.searchCall "foursquare" limit, .searchCall "mock" limit] := by
  have hmem : "foursquare" ∈ availableSources c := by
    simp [availableSources, hF]
  have hrun : collect_businesses c now location source query category limit
      = (.ok { success := true
               source := "mock"
               location := location
               query := query
               category := category
               count := ((c.mockSearch location query category limit).map
                 (fun b => { b with data_source := some "mock" })).length
               businesses := (c.mockSearch location query category limit).map
                 (fun b => { b with data_source := some "mock" })
               timestamp := now
               cache_info := { cached := false, source := "generated" } },
         [.searchCall "foursquare" limit, .searchCall "mock" limit]) := by
    simp only [collect_businesses, collectAux]
    rw [hres]
    simp [sourceSearchCall, hfail, availableSources, hF, resolveSource]
  have hmockrun : collect_businesses c now location "mock" query category limit
      = (.ok { success := true
               source := "mock"
               location := location
               query := query
               category := category
               count := ((c.mockSearch location query category limit).map
                 (fun b => { b with data_source := some "mock" })).length
               businesses := (c.mockSearch location query category limit).map
                 (fun b => { b with data_source := some "mock" })
               timestamp := now
               cache_info := { cached := false, source := "generated" } },
         [.searchCall "mock" limit]) := by
    simp [collect_businesses, collectAux, sourceSearchCall, resolveSource,
      availableSources]
  rw [hrun, hmockrun]
  exact ⟨rfl, ⟨_, rfl, rfl, rfl⟩, rfl⟩

/-- Witness for the amended C1 theorem: a collector whose Foursquare search
raises, queried with the explicit `foursquare` source. -/
theorem fallback_result_is_plain_mock_result_witness :
    ((collect_businesses (failingFsqCollector "down" []) "t1" "LA"
        "foursquare" "" "" 3).1
      = (collect_businesses (failingFsqCollector "down" []) "t1" "LA"
          "mock" "" "" 3).1) ∧
    (∃ r, (collect_businesses (failingFsqCollector "down" []) "t1" "LA"
        "foursquare" "" "" 3).1 = .ok r ∧ r.source = "mock" ∧ r.success = true) ∧
    (collect_businesses (failingFsqCollector "down" []) "t1" "LA"
        "foursquare" "" "" 3).2
      = [.searchCall "foursquare" 3, .searchCall "mock" 3] := by
  have h := fallback_result_is_plain_mock_result (failingFsqCollector "down" [])
    "t1" "LA" "foursquare" "" "" "down" 3 (by decide) rfl rfl
  exact h

theorem collectAux_events_limit (c : Collector) (now : String) :
    ∀ (fuel : Nat) (location source query category : String) (limit : Int)
      (ev : CallEvent),
      ev ∈ (collectAux c now fuel location source query category limit).2 →
      ∃ s, ev = .searchCall s limit := by
  intro fuel
  induction fuel with
  | zero =>
      intro location source query category limit ev hev
      simp [collectAux] at hev
  | succ fuel ih =>
      intro location source query category limit ev hev
      simp only [collectAux] at hev
      by_cases hmem : resolveSource c source ∈ availableSources c
      · rw [if_pos hmem] at hev
        cases hcall : sourceSearchCall c (resolveSource c source) location
            query category limit with
        | ok bs =>
            rw [hcall] at hev
            simp at hev
            exact ⟨_, hev⟩
        | error e =>
            rw [hcall] at hev
            dsimp only at hev
            by_cases hm : resolveSource c source = "mock"
            · rw [if_neg (not_not_intro hm)] at hev
              simp at hev
              exact ⟨_, hev⟩
            · rw [if_pos hm] at hev
              simp at hev
              rcases hev with hev | hev
              · exact ⟨_, hev⟩
              · exact ih location "mock" query category limit ev hev
      · rw [if_neg hmem] at hev
        simp at hev

theorem collect_competitors_events (c : Collector)
    (now target location category : String) (limit : Int) :
    (collect_competitors c now target location category limit).2
      = (collect_businesses c now location "auto"
          (if category = "" then "" else category) "" (limit * 2)).2 := by
  unfold collect_competitors
  cases hx : collect_businesses c now location "auto"
      (if category = "" then "" else category) "" (limit * 2) with
  | mk a evs => cases a <;> rfl

/-- C3 counterexample: a competitor-analysis request with the (in-range)
requested limit 50 reaches the adapter with limit 100 ∉ [1, 50]:
`collect_competitors` passes `limit * 2` straight into
`collect_businesses`, which hands it to the adapter unclamped
(data_collector.py line 175); the `CompetitorAnalysisView` performs no
clamping of its own (views.py line 153). -/
theorem competitor_limit_unclamped_cex :
    (collect_competitors (mockOnlyCollector []) "t0" "Target" "NYC" "" 50).2
      = [.searchCall "mock" 100] ∧ ¬((100 : Int) ≤ 50) := by
  constructor
  · rfl
  · decide

/-- C3 (amended): on the ordinary search path the view clamps the caller's
limit into [1, 50] before the collector runs, and every adapter invocation
carries that clamped limit; the competitor-analysis path instead hands every
adapter invocation `2 × limit` with the caller's raw limit unclamped, which
leaves the interval [1, 50] (e.g. 100 for a requested 50, or negative values
for a negative request). -/
theorem limit_clamping_behaviour (c : Collector)
    (now location source query category target : String) (raw : Int) :
    (1 ≤ business_search_view_limit raw ∧ business_search_view_limit raw ≤ 50) ∧
    (∀ ev ∈ (collect_businesses c now location source query category
        (business_search_view_limit raw)).2,
      ∃ s, ev = .searchCall s (business_search_view_limit raw)) ∧
    (∀ ev ∈ (collect_competitors c now target location category raw).2,
      ∃ s, ev = .searchCall s (raw * 2)) := by
  refine ⟨⟨le_min (le_max_right raw 1) (by norm_num), min_le_right _ _⟩, ?_, ?_⟩
  · intro ev hev
    exact collectAux_events_limit c now 2 location source query category _ ev hev
  · intro ev hev
    rw [collect_competitors_events] at hev
    exact collectAux_events_limit c now 2 location "auto" _ "" _ ev hev

/-- Witness for the amended C3 theorem at a concrete out-of-range request:
the clamped ordinary limit and the concrete traces. -/
theorem limit_clamping_behaviour_witness :
    (1 ≤ business_search_view_limit 999 ∧ business_search_view_limit 999 ≤ 50) ∧
    (∃ s, CallEvent.searchCall "mock" (business_search_view_limit 999)
        = CallEvent.searchCall s (business_search_view_limit 999)) ∧
    (∃ s, CallEvent.searchCall "mock" 100 = CallEvent.searchCall s (50 * 2)) := by
  have h := limit_clamping_behaviour (mockOnlyCollector []) "t0" "NYC" "mock"
    "" "" "Target" 999
  have h2 := limit_clamping_behaviour (mockOnlyCollector []) "t0" "NYC" "mock"
    "" "" "Target" 50
  refine ⟨h.1, ?_, ?_⟩
  · exact h.2.1 (.searchCall "mock" (business_search_view_limit 999)) (by decide)
  · exact h2.2.2 (.searchCall "mock" 100) (by decide)

theorem pyRoundTo_zero (n : Nat) : pyRoundTo n 0 = 0 := by
  simp [pyRoundTo, pyRound]

theorem filterCompetitors_eq (t : String) (l : List Business) :
    filterCompetitors t l = l.filter (fun b => !containsLower b.name t) := by
  induction l with
  | nil => rfl
  | cons b bs ih =>
      simp only [filterCompetitors, List.filter_cons]
      cases h : containsLower b.name t <;> simp [h, ih]

theorem ratingsOf_eq (l : List Business) :
    ratingsOf l
      = (l.filterMap Business.rating).filter (fun q => decide (q ≠ 0)) := by
  induction l with
  | nil => rfl
  | cons b bs ih =>
      cases hr : b.rating with
      | none => simp [ratingsOf, hr, ih]
      | some q =>
          by_cases hq : q = 0
          · simp [ratingsOf, hr, hq, ih]
          · simp [ratingsOf, hr, hq, ih]

/-- C8 (amended): competitor analysis excludes exactly the results whose
name contains the target as a case-insensitive substring and truncates to
the requested limit; but the reported "average rating" is the mean over only
those remaining results with a present, non-zero rating (0 when there are
none), rounded half-to-even to 2 decimal places, and the reported "average
reviews" is the mean `stats.tip_count` (missing counted as 0) rounded
half-to-even to an integer; both means are 0 when the remaining set is
empty. -/
theorem competitor_analysis_behaviour (c : Collector)
    (now target location category : String) (limit : Int) (res : CollectResult)
    (h : (collect_businesses c now location "auto"
        (if category = "" then "" else category) "" (limit * 2)).1 = .ok res) :
    ∃ cr, (collect_competitors c now target location category limit).1 = .ok cr ∧
      cr.source = res.source ∧
      cr.competitors = pySliceTo limit
        (res.businesses.filter (fun b => !containsLower b.name target)) ∧
      (cr.competitors = [] →
        cr.analysis.average_competitor_rating = 0 ∧
        cr.analysis.average_competitor_reviews = 0) ∧
      (cr.competitors ≠ [] →
        cr.analysis.average_competitor_rating
          = pyRoundTo 2
              (if ((cr.competitors.filterMap Business.rating).filter
                    (fun q => decide (q ≠ 0))) = [] then 0
               else ((cr.competitors.filterMap Business.rating).filter
                      (fun q => decide (q ≠ 0))).sum
                 / (((cr.competitors.filterMap Business.rating).filter
                      (fun q => decide (q ≠ 0))).length : ℚ)) ∧
        cr.analysis.average_competitor_reviews
          = pyRoundTo 0 ((cr.competitors.map tipCountOrZero).sum
              / ((cr.competitors.map tipCountOrZero).length : ℚ))) := by
  unfold collect_competitors
  cases hx : collect_businesses c now location "auto"
      (if category = "" then "" else category) "" (limit * 2) with
  | mk a evs =>
      rw [hx] at h
      obtain rfl : a = .ok res := h
      dsimp only
      refine ⟨_, rfl, rfl, ?_, ?_, ?_⟩
      · show pySliceTo limit (filterCompetitors target res.businesses) = _
        rw [filterCompetitors_eq]
      · intro hemp
        dsimp only at hemp ⊢
        rw [hemp]
        exact ⟨pyRoundTo_zero 2, pyRoundTo_zero 0⟩
      · intro hne
        dsimp only
        cases hcl : pySliceTo limit (filterCompetitors target res.businesses) with
        | nil => exact absurd hcl hne
        | cons b bs =>
            constructor
            · have hrat := ratingsOf_eq (b :: bs)
              dsimp only
              rw [hrat]
              cases hf : ((b :: bs).filterMap Business.rating).filter
                  (fun q => decide (q ≠ 0)) with
              | nil => simp
              | cons q qs => simp
            · simp only [List.map_cons]

/-- C8 counterexample: with the remaining set `[Alpha (rating 0, 2 tips),
Beta (rating 4, 2 tips)]` the claimed arithmetic mean rating over the
remaining set is `(0 + 4) / 2 = 2`, but the code reports 4, because the
comprehension `[b.get('rating', 0) for b in competitors if b.get('rating')]`
(data_collector.py line 188) drops the zero rating before averaging. -/
theorem competitor_mean_rating_cex :
    reportedCompetitors (collect_competitors (mockOnlyCollector c8Businesses)
        "t0" "Target" "NYC" "" 5).1
      = [{ name := "Alpha", rating := some 0, tip_count := some 2,
           data_source := some "mock" },
         { name := "Beta", rating := some 4, tip_count := some 2,
           data_source := some "mock" }] ∧
    reportedAvgRating (collect_competitors (mockOnlyCollector c8Businesses)
        "t0" "Target" "NYC" "" 5).1 = 4 ∧
    ((0 : ℚ) + 4) / 2 = 2 ∧ (4 : ℚ) ≠ 2 := by
  have hA : containsLower "Alpha" "Target" = false := by decide
  have hB : containsLower "Beta" "Target" = false := by decide
  have hsearch : collect_businesses (mockOnlyCollector c8Businesses) "t0" "NYC"
      "auto" (if ("" : String) = "" then "" else "") "" (5 * 2)
      = (.ok c8SearchResult, [.searchCall "mock" 10]) := by rfl
  have hrun : (collect_competitors (mockOnlyCollector c8Businesses)
      "t0" "Target" "NYC" "" 5).1
      = .ok { success := true
              source := "mock"
              target_business := "Target"
              competitors_count := 2
              competitors := c8SearchResult.businesses
              analysis := { average_competitor_rating := 4
                            average_competitor_reviews := 2
                            market_saturation := 2 } } := by
    unfold collect_competitors
    rw [hsearch]
    dsimp only
    simp [c8SearchResult, filterCompetitors, hA, hB, pySliceTo, ratingsOf,
      tipCountOrZero]
    norm_num [pyRoundTo, pyRound]
  refine ⟨?_, ?_, by norm_num, by norm_num⟩
  · rw [hrun]; rfl
  · rw [hrun]; rfl

/-- Witness for the amended C8 theorem at the concrete mock-only collector
over `c8Businesses`. -/
theorem competitor_analysis_behaviour_witness :
    ∃ cr, (collect_competitors (mockOnlyCollector c8Businesses) "t0" "Target"
        "NYC" "" 5).1 = .ok cr ∧
      cr.source = c8SearchResult.source ∧
      cr.competitors = pySliceTo 5
        (c8SearchResult.businesses.filter
          (fun b => !containsLower b.name "Target")) ∧
      (cr.competitors = [] →
        cr.analysis.average_competitor_rating = 0 ∧
        cr.analysis.average_competitor_reviews = 0) ∧
      (cr.competitors ≠ [] →
        cr.analysis.average_competitor_rating
          = pyRoundTo 2
              (if ((cr.competitors.filterMap Business.rating).filter
                    (fun q => decide (q ≠ 0))) = [] then 0
               else ((cr.competitors.filterMap Business.rating).filter
                      (fun q => decide (q ≠ 0))).sum
                 / (((cr.competitors.filterMap Business.rating).filter
                      (fun q => decide (q ≠ 0))).length : ℚ)) ∧
        cr.analysis.average_competitor_reviews
          = pyRoundTo 0 ((cr.competitors.map tipCountOrZero).sum
              / ((cr.competitors.map tipCountOrZero).length : ℚ))) := by
  have h := competitor_analysis_behaviour (mockOnlyCollector c8Businesses)
    "t0" "Target" "NYC" "" 5 c8SearchResult (by rfl)
  exact h

end Insight
